import Mathlib

/-!
Verification of the SSH connection transport (`lib/ansible/plugins/connection/ssh.py`)
and the `add_host` action plugin (`lib/ansible/plugins/action/add_host.py`).

The Python source is shallowly embedded: argument assembly, the retry wrapper,
the privilege-escalation handshake, the select-driven pump, file transfer and
the `add_host` result construction become pure Lean functions.  External I/O
(select readiness, chunk contents, process exit codes, the filesystem) is
supplied through explicit event traces and record parameters, so every
definition is executable on concrete inputs.
-/

namespace Ansible

/-! ## String helpers (Python `str` operations used by the source) -/

/-- Whitespace characters recognised by Python `str.strip` / `shlex`. -/
def isSpaceChar (c : Char) : Bool :=
  c == ' ' || c == '\t' || c == '\n' || c == '\r' || c == '\x0b' || c == '\x0c'

/-- Python `str.strip()`: drop leading and trailing whitespace. -/
def pyStrip (s : String) : String :=
  String.mk (((s.data.dropWhile isSpaceChar).reverse.dropWhile isSpaceChar).reverse)

/-- Boolean prefix test on character lists. -/
def listPre : List Char → List Char → Bool
  | [], _ => true
  | _ :: _, [] => false
  | a :: p, b :: l => a == b && listPre p l

/-- Boolean test: `p` is a prefix of `s`. -/
def strPre (p s : String) : Bool := listPre p.data s.data

/-- Boolean substring test on character lists. -/
def listHasSub (p : List Char) : List Char → Bool
  | [] => p.isEmpty
  | c :: t => listPre p (c :: t) || listHasSub p t

/-- Python `pat in s` substring containment, as used by the
`ControlPersist`/`ControlPath` scan in `_connect`. -/
def strContains (s pat : String) : Bool := listHasSub pat.data s.data

/-- Core of the `shlex.split` model: `quote` is the active quote character,
`started` whether a token is open, `cur` the current token (reversed),
`acc` the finished tokens. -/
def shlexAux (quote : Option Char) (started : Bool) (cur : List Char)
    (acc : List String) : List Char → List String
  | [] => if started then acc ++ [String.mk cur.reverse] else acc
  | c :: rest =>
    match quote with
    | some q =>
      if c == q then shlexAux none true cur acc rest
      else if q == '"' && c == '\\' then
        match rest with
        | [] => shlexAux quote true (c :: cur) acc []
        | d :: rest' =>
          if d == '"' || d == '\\' then shlexAux quote true (d :: cur) acc rest'
          else shlexAux quote true (d :: c :: cur) acc rest'
      else shlexAux quote true (c :: cur) acc rest
    | none =>
      if isSpaceChar c then
        if started then shlexAux none false [] (acc ++ [String.mk cur.reverse]) rest
        else shlexAux none false [] acc rest
      else if c == '\\' then
        match rest with
        | [] => shlexAux none true cur acc []
        | d :: rest' => shlexAux none true (d :: cur) acc rest'
      else if c == '\'' || c == '"' then shlexAux (some c) true cur acc rest
      else shlexAux none true (c :: cur) acc rest

/-- `shlex.split` (POSIX mode) on a string. -/
def shlexSplit (s : String) : List String := shlexAux none false [] [] s.data

/-- `Connection._split_args`: shell-aware splitting followed by stripping each
token and dropping empties. -/
def splitArgs (argstring : String) : List String :=
  ((shlexSplit argstring).map pyStrip).filter (fun x => x ≠ "")

/-! ## Data model -/

/-- Caller-supplied per-task connection parameters (read-only to the transport).
An unset string field is the empty string (Python falsy). -/
structure PlayContext where
  remote_addr : String := ""
  remote_user : String := ""
  port : Option Nat := none
  password : String := ""
  private_key_file : String := ""
  timeout : Nat := 10
  verbosity : Nat := 0
  ssh_extra_args : String := ""
  become : Bool := false
  become_method : String := "sudo"
  become_pass : String := ""
  prompt : String := ""
deriving Repr

/-- Per-host inventory overrides read by `set_host_overrides`. -/
structure HostVars where
  ansible_ssh_args : String := ""
  ansible_ssh_extra_args : String := ""
deriving Repr

/-- Process-wide configuration constants consulted by the transport.
`ANSIBLE_SSH_CONTROL_PATH` is the template application
`C.ANSIBLE_SSH_CONTROL_PATH % dict(directory=d)`. -/
structure GlobalConfig where
  ANSIBLE_SSH_ARGS : String := ""
  ANSIBLE_SSH_CONTROL_PATH : String → String := fun d => d ++ "/ansible-ssh-%h-%p-%r"
  HOST_KEY_CHECKING : Bool := true
  ANSIBLE_SSH_RETRIES : Nat := 0
  DEFAULT_SCP_IF_SSH : Bool := false
  DEFAULT_SFTP_BATCH_MODE : Bool := true

/-- Everything `_connect` reads: the play context, the host overrides, the
global configuration, the current effective user (`pwd.getpwuid(os.geteuid())`)
and the home directory used to expand `$HOME` and `~`. -/
structure ConnectEnv where
  pc : PlayContext := {}
  hv : HostVars := {}
  gc : GlobalConfig := {}
  euser : String := "root"
  home : String := "/root"

/-- Abstract filesystem state: directory modes and a writability predicate
(`os.access(path, os.W_OK)`). -/
structure FileSystem where
  dirMode : String → Option Nat
  writable : String → Bool

/-- Modelled from the spec: `makedirs_safe` (from `ansible.utils.path`, whose
source is not part of this repository) must "ensure the directory exists
(mode 0700)"; afterwards the directory exists with the requested mode. -/
def makedirs_safe (fs : FileSystem) (p : String) (m : Nat) : FileSystem :=
  { fs with dirMode := fun q => if q = p then some m else fs.dirMode q }

/-- Modelled from the spec: `unfrackpath('$HOME/.ansible/cp')` (from
`ansible.utils.path`, not part of this repository) expands `$HOME`. -/
def cpDir (env : ConnectEnv) : String := env.home ++ "/.ansible/cp"

/-- `os.path.expanduser`: expand a leading `~` to the home directory. -/
def expanduser (home p : String) : String :=
  if strPre "~" p then home ++ (String.mk p.data.tail) else p

/-! ## `Connection._connect`: argument assembly -/

/-- Step 1 of `_connect`: the base arguments, first non-empty of the inventory
`ansible_ssh_args`, the global `ANSIBLE_SSH_ARGS`, or the Control* defaults. -/
def connectBaseArgs (env : ConnectEnv) : List String :=
  if env.hv.ansible_ssh_args ≠ "" then splitArgs env.hv.ansible_ssh_args
  else if env.gc.ANSIBLE_SSH_ARGS ≠ "" then splitArgs env.gc.ANSIBLE_SSH_ARGS
  else ["-o", "ControlMaster=auto", "-o", "ControlPersist=60s"]

/-- The fix-up condition: some base argument mentions `ControlPersist` and none
mentions `ControlPath`. -/
def addCp (env : ConnectEnv) : Bool :=
  (connectBaseArgs env).any (fun a => strContains a "ControlPersist") &&
    !((connectBaseArgs env).any (fun a => strContains a "ControlPath"))

/-- The `ControlPath` option value appended by the fix-up. -/
def cpToken (env : ConnectEnv) : String :=
  "ControlPath=\"" ++ env.gc.ANSIBLE_SSH_CONTROL_PATH (cpDir env) ++ "\""

/-- Step 2 of `_connect`: the transport-added `ControlPath` option, if any. -/
def cpArgs (env : ConnectEnv) : List String :=
  if addCp env then ["-o", cpToken env] else []

/-- Step 3: `StrictHostKeyChecking=no` when host-key checking is disabled. -/
def hostKeyArgs (env : ConnectEnv) : List String :=
  if !env.gc.HOST_KEY_CHECKING then ["-o", "StrictHostKeyChecking=no"] else []

/-- Step 4: the port option. -/
def portArgs (env : ConnectEnv) : List String :=
  match env.pc.port with
  | some p => ["-o", "Port=" ++ toString p]
  | none => []

/-- Step 5: the identity-file option. -/
def identityArgs (env : ConnectEnv) : List String :=
  if env.pc.private_key_file ≠ "" then
    ["-o", "IdentityFile=\"" ++ expanduser env.home env.pc.private_key_file ++ "\""]
  else []

/-- The `KbdInteractiveAuthentication=no` option value. -/
def kbdOpt : String := "KbdInteractiveAuthentication=no"

/-- The `PreferredAuthentications=...` option value. -/
def prefAuthOpt : String :=
  "PreferredAuthentications=gssapi-with-mic,gssapi-keyex,hostbased,publickey"

/-- The `PasswordAuthentication=no` option value. -/
def pwAuthOpt : String := "PasswordAuthentication=no"

/-- The authentication-restriction options appended when no password is set. -/
def authLockdownArgs : List String :=
  ["-o", kbdOpt, "-o", prefAuthOpt, "-o", pwAuthOpt]

/-- Step 6: auth restriction, only when `password` is empty. -/
def authArgs (env : ConnectEnv) : List String :=
  if env.pc.password = "" then authLockdownArgs else []

/-- Step 7: the `User` option when a remote user is set and differs from the
current effective user. -/
def userArgs (env : ConnectEnv) : List String :=
  if env.pc.remote_user ≠ "" && env.pc.remote_user ≠ env.euser then
    ["-o", "User=" ++ env.pc.remote_user]
  else []

/-- Step 8: the connect timeout, always present. -/
def timeoutArgs (env : ConnectEnv) : List String :=
  ["-o", "ConnectTimeout=" ++ toString env.pc.timeout]

/-- Step 9: extra args, first non-empty of the command-line
`ssh_extra_args` or the inventory `ansible_ssh_extra_args`. -/
def extraArgs (env : ConnectEnv) : List String :=
  if env.pc.ssh_extra_args ≠ "" then splitArgs env.pc.ssh_extra_args
  else if env.hv.ansible_ssh_extra_args ≠ "" then splitArgs env.hv.ansible_ssh_extra_args
  else []

/-- Everything `_connect` appends after the ControlPath fix-up. -/
def connectPostCpArgs (env : ConnectEnv) : List String :=
  hostKeyArgs env ++ portArgs env ++ identityArgs env ++ authArgs env ++
    userArgs env ++ timeoutArgs env ++ extraArgs env

/-- The full `common_args` composed by `_connect` on a fresh connection. -/
def connectCommonArgs (env : ConnectEnv) : List String :=
  connectBaseArgs env ++ cpArgs env ++ connectPostCpArgs env

/-- The filesystem after the fix-up's `makedirs_safe` call (unchanged when the
fix-up did not run). -/
def connectFs (env : ConnectEnv) (fs : FileSystem) : FileSystem :=
  if addCp env then makedirs_safe fs (cpDir env) 0o700 else fs

/-- `Connection._connect` on a fresh (not yet connected) instance: returns the
composed `common_args`, the transport-chosen control-path directory (when the
fix-up ran), and the updated filesystem; raises (returns an error) when the
control-path directory is not writable after creation. -/
def connect (env : ConnectEnv) (fs : FileSystem) :
    Except String (List String × Option String × FileSystem) :=
  if addCp env && !((connectFs env fs).writable (cpDir env)) then
    Except.error ("Cannot write to ControlPath " ++ cpDir env)
  else
    Except.ok (connectCommonArgs env,
      if addCp env then some (cpDir env) else none, connectFs env fs)

/-! ## `Connection._password_cmd` and the `_exec_command` argv -/

/-- Python truthiness of the optional `in_data` argument. -/
def indataTruthy : Option String → Bool
  | none => false
  | some s => s ≠ ""

/-- `Connection._password_cmd` (argv part): when a password is configured the
command is prefixed with `sshpass -d<rfd>` where `rfd` is the read end of the
freshly allocated pipe. -/
def passwordCmd (password : String) (rfd : Nat) : List String :=
  if password ≠ "" then ["sshpass", "-d" ++ toString rfd] else []

/-- The child argv composed by `Connection._exec_command`:
`_password_cmd() + ["ssh", "-C"] (+ ["-tt"] when not pipelining)
(+ verbosity flag) + common_args + [host, cmd]`. -/
def execSshCmd (password : String) (rfd : Nat) (verbosity : Nat)
    (common : List String) (host cmd : String) (in_data : Option String) : List String :=
  passwordCmd password rfd ++ ["ssh", "-C"] ++
    (if !indataTruthy in_data then ["-tt"] else []) ++
    (if verbosity > 3 then ["-vvv"] else ["-q"]) ++
    common ++ [host, cmd]

/-! ## `Connection.exec_command`: the retry wrapper -/

/-- One attempt's outcome as seen by the retry wrapper: `_exec_command` either
returns a `(returncode, stdout, stderr)` tuple or raises. -/
inductive ExecOutcome where
  | ok (rc : Int) (stdout stderr : String)
  | exc (msg : String)
deriving Repr, DecidableEq

/-- The backoff pause of `exec_command`: `pause = 2 ** attempt - 1`, capped
at 30. -/
def sshPause (attempt : Nat) : Nat := min (2 ^ attempt - 1) 30

/-- The retry loop of `exec_command`. `last = remaining_tries - 1` is the final
attempt index; `fuel` counts the attempts left (`fuel = last + 1 - attempt`).
Returns the returned-or-raised result, the number of `_exec_command`
invocations, and the list of pause durations slept. -/
def execRetryGo (stub : Nat → ExecOutcome) (last : Nat) :
    Nat → Nat → Except String (Int × String × String) × Nat × List Nat
  | _, 0 => (Except.error "unreachable: the loop always runs at least once", 0, [])
  | attempt, fuel + 1 =>
    match stub attempt with
    | ExecOutcome.ok rc out err =>
      if rc ≠ 255 ∨ attempt = last then (Except.ok (rc, out, err), 1, [])
      else
        let r := execRetryGo stub last (attempt + 1) fuel
        (r.1, r.2.1 + 1, sshPause attempt :: r.2.2)
    | ExecOutcome.exc e =>
      if attempt = last then (Except.error e, 1, [])
      else
        let r := execRetryGo stub last (attempt + 1) fuel
        (r.1, r.2.1 + 1, sshPause attempt :: r.2.2)

/-- `Connection.exec_command`: `remaining_tries = ANSIBLE_SSH_RETRIES + 1`
attempts of `_exec_command` (here the stub indexed by attempt number), with
retries on exit code 255 and on any exception, pausing `sshPause k` after the
`k`-th failed attempt. -/
def exec_command (stub : Nat → ExecOutcome) (retries : Nat) :
    Except String (Int × String × String) × Nat × List Nat :=
  execRetryGo stub retries 0 (retries + 1)

/-! ## The privilege-escalation handshake -/

/-- The escalation-policy string predicates (capability hooks owned by the
caller); `checkIncorrectPassword` is true when the hook would raise. -/
structure EscCaps where
  checkBecomeSuccess : String → Bool
  checkPasswordPrompt : String → Bool
  checkIncorrectPassword : String → Bool

/-- One `select` outcome inside the handshake loop: a timeout, or a chunk read
from stderr or stdout (the empty chunk is EOF). -/
inductive SelEvent where
  | timeout
  | errChunk (s : String)
  | outChunk (s : String)
deriving Repr, DecidableEq

/-- Errors raised on the `_exec_command` path. -/
inductive ExecErr where
  | escalationTimeout (become_output : String)
  | incorrectPassword
  | missingPassword (method : String)
  | traceExhausted
  | dataNotSent
  | hostKeyWithSshpass
  | controlPersistUnsupported
deriving Repr, DecidableEq

/-- The handshake loop of `_exec_command` (entered when `prompt` is set):
accumulate stdout/stderr chunks until the success marker or a password prompt
is seen; an empty chunk (EOF) exits the loop without a prompt; a timeout or an
incorrect-password marker raises.  Returns `(passprompt, become_output,
become_errput)`. -/
def handshakeLoop (caps : EscCaps) :
    List SelEvent → String → String → Except ExecErr (Bool × String × String)
  | events, out, err =>
    if caps.checkBecomeSuccess (out ++ err) then Except.ok (false, out, err)
    else if caps.checkPasswordPrompt out || caps.checkPasswordPrompt err then
      Except.ok (true, out, err)
    else
      match events with
      | [] => Except.error ExecErr.traceExhausted
      | SelEvent.timeout :: _ => Except.error (ExecErr.escalationTimeout out)
      | SelEvent.errChunk c :: rest =>
        let err' := err ++ c
        if caps.checkIncorrectPassword err' then Except.error ExecErr.incorrectPassword
        else if c = "" then Except.ok (false, out, err')
        else handshakeLoop caps rest out err'
      | SelEvent.outChunk c :: rest =>
        let out' := out ++ c
        if c = "" then Except.ok (false, out', err)
        else handshakeLoop caps rest out' err

/-! ## `Connection._communicate`: the select-driven pump -/

/-- One iteration of the pump's `select`: which of the two pipes reported
ready, the data `os.read` would return for the drained pipe, and whether
`p.poll()` reports the process as exited at the end of the iteration. -/
structure PumpEvent where
  errReady : Bool
  outReady : Bool
  errData : String
  outData : String
  exited : Bool
deriving Repr, DecidableEq

/-- The read loop of `_communicate`: drain stderr first (if/elif cascade),
remove a pipe from the working set on an empty read, fail early on a wrong or
missing become password, and terminate per the `rpipes`/`rfd`/`poll`
conditions of the source. -/
def communicateLoop (caps : EscCaps) (become sudoable : Bool) (becomePass : String) :
    List PumpEvent → Bool → Bool → String → String → Except ExecErr (String × String)
  | [], _, _, _, _ => Except.error ExecErr.traceExhausted
  | e :: rest, rpErr, rpOut, out, err =>
    if become && sudoable && becomePass ≠ "" && caps.checkIncorrectPassword out then
      Except.error ExecErr.incorrectPassword
    else if become && sudoable && becomePass = "" && caps.checkPasswordPrompt out then
      Except.error (ExecErr.missingPassword "become")
    else
      let rErr := e.errReady && rpErr
      let rOut := e.outReady && rpOut
      let err' := if rErr then err ++ e.errData else err
      let out' := if !rErr && rOut then out ++ e.outData else out
      let rpErr' := if rErr && e.errData = "" then false else rpErr
      let rpOut' := if !rErr && rOut && e.outData = "" then false else rpOut
      if ((!rpErr' && !rpOut') || (!rErr && !rOut)) && e.exited then
        Except.ok (out', err')
      else if (!rpErr' && !rpOut') && !e.exited then
        Except.ok (out', err')
      else
        communicateLoop caps become sudoable becomePass rest rpErr' rpOut' out' err'

/-- `Connection._communicate`: write `in_data` to stdin (a failed write raises
the data-not-sent connection failure), then pump both pipes to completion.
`rc` is the child's final return code, `events` the scripted select outcomes.
Returns `(returncode, stdout, stderr)`. -/
def communicate (caps : EscCaps) (become sudoable : Bool) (becomePass : String)
    (indata : Option String) (stdinWriteOk : Bool) (events : List PumpEvent)
    (rc : Int) : Except ExecErr (Int × String × String) :=
  if indataTruthy indata && !stdinWriteOk then Except.error ExecErr.dataNotSent
  else
    match communicateLoop caps become sudoable becomePass events true true "" "" with
    | Except.error e => Except.error e
    | Except.ok (out, err) => Except.ok (rc, out, err)

/-! ## `Connection._exec_command` end to end -/

/-- All the scripted externals of one `_exec_command` invocation. -/
structure ExecTrace where
  hsEvents : List SelEvent := []
  pumpEvents : List PumpEvent := []
  rc : Int := 0
  stdinWriteOk : Bool := true

/-- `Connection._exec_command` after the child is spawned: run the handshake
when `prompt` is set (carrying its buffers into the output only when no
password prompt was detected), pump the pipes, then apply the host-key,
ControlPersist and data-not-sent checks.  Returns the source's 4-tuple
`(returncode, '', no_prompt_out + stdout, no_prompt_err + stderr)`. -/
def execCommandOnce (pc : PlayContext) (caps : EscCaps) (common : List String)
    (host cmd : String) (in_data : Option String) (sudoable : Bool)
    (hostKeyChecking : Bool) (rfd : Nat) (tr : ExecTrace) :
    Except ExecErr (Int × String × String × String) :=
  let ssh_cmd := execSshCmd pc.password rfd pc.verbosity common host cmd in_data
  match
    (if pc.prompt ≠ "" then handshakeLoop caps tr.hsEvents "" ""
     else Except.ok (false, "", "")) with
  | Except.error e => Except.error e
  | Except.ok (passprompt, become_output, become_errput) =>
    let no_prompt_out := if pc.prompt ≠ "" && !passprompt then become_output else ""
    let no_prompt_err := if pc.prompt ≠ "" && !passprompt then become_errput else ""
    match communicate caps pc.become sudoable pc.become_pass in_data tr.stdinWriteOk
        tr.pumpEvents tr.rc with
    | Except.error e => Except.error e
    | Except.ok (rc, stdout, stderr) =>
      let controlpersisterror :=
        strContains stderr "Bad configuration option: ControlPersist" ||
          strContains stderr "unknown configuration option: ControlPersist"
      if hostKeyChecking && ssh_cmd.head? = some "sshpass" && rc = 6 then
        Except.error ExecErr.hostKeyWithSshpass
      else if rc ≠ 0 && controlpersisterror then
        Except.error ExecErr.controlPersistUnsupported
      else if rc = 255 && indataTruthy in_data then
        Except.error ExecErr.dataNotSent
      else
        Except.ok (rc, "", no_prompt_out ++ stdout, no_prompt_err ++ stderr)

/-! ## File transfer: `put_file` / `fetch_file` -/

/-- The characters `pipes.quote` leaves unquoted (ASCII letters, digits and
`@%_-+=:,./`). -/
def pipesSafeChar (c : Char) : Bool :=
  c.isAlpha || c.isDigit || c == '@' || c == '%' || c == '_' || c == '-' ||
    c == '+' || c == '=' || c == ':' || c == ',' || c == '.' || c == '/'

/-- The replacement `pipes.quote` makes for a single-quote character. -/
def pipesQuoteEscape : List Char := ['\'', '"', '\'', '"', '\'']

/-- `pipes.quote`: return the string unchanged when every character is safe,
otherwise wrap it in single quotes, escaping embedded single quotes. -/
def shQuote (s : String) : String :=
  if s = "" then String.mk ['\'', '\'']
  else if s.data.all pipesSafeChar then s
  else String.mk ('\'' :: (s.data.map
    (fun c => if c == '\'' then pipesQuoteEscape else [c])).flatten ++ ['\''])

/-- `scp` and `sftp` require square brackets for IPv6 addresses; `put_file`
applies them unconditionally. -/
def bracketHost (h : String) : String := "[" ++ h ++ "]"

/-- The child argv and stdin data composed by `put_file` (after the
local-existence check): `scp` gets `in [host]:quoted-out` on the command line,
`sftp` gets the bracketed host and a `put` command on stdin. -/
def putFileCmd (pw common : List String) (scpIfSsh : Bool) (host inp outp : String) :
    List String × Option String :=
  if scpIfSsh then
    (pw ++ ["scp"] ++ common ++ [inp, bracketHost host ++ ":" ++ shQuote outp], none)
  else
    (pw ++ ["sftp"] ++ common ++ [bracketHost host],
     some ("put " ++ shQuote inp ++ " " ++ shQuote outp ++ "\n"))

/-- The child argv and stdin data composed by `fetch_file`: `scp` gets
`host:in out` (host unbracketed, paths unquoted), `sftp` optionally gets
batch mode `-b -`, the bare host, and a `get` command on stdin. -/
def fetchFileCmd (pw common : List String) (scpIfSsh batchMode : Bool)
    (host inp outp : String) : List String × Option String :=
  if scpIfSsh then
    (pw ++ ["scp"] ++ common ++ [host ++ ":" ++ inp, outp], none)
  else
    (pw ++ ["sftp"] ++ (if batchMode then ["-b", "-"] else []) ++ common ++ [host],
     some ("get " ++ inp ++ " " ++ outp ++ "\n"))

/-! ## Launch discipline and pump selection -/

/-- How the child's stdin is wired by the launcher. -/
inductive StdinMode where
  | pipe
  | ptyMaster
deriving Repr, DecidableEq

/-- Which drain loop is used on the child's pipes. -/
inductive PumpKind where
  | selectPump
  | blockingCommunicate
deriving Repr, DecidableEq

/-- The stdin discipline of `Connection._run`: a pipe when there is stdin
data, otherwise an attempted pseudo-terminal with fallback to a pipe
(`ptyOk` is whether `pty.openpty()` succeeds). -/
def runStdinMode (indata : Option String) (ptyOk : Bool) : StdinMode :=
  if indataTruthy indata then StdinMode.pipe
  else if ptyOk then StdinMode.ptyMaster
  else StdinMode.pipe

/-- The observable shape of one child-process interaction: the argv, the stdin
data, the launcher's stdin discipline and the drain loop used. -/
structure ChildInteraction where
  argv : List String
  indata : Option String
  stdinMode : StdinMode
  pump : PumpKind
deriving Repr, DecidableEq

/-- The interaction produced by composing `Connection._run` with
`Connection._communicate` on a given argv and stdin data. -/
def runCommunicateInteraction (argv : List String) (indata : Option String)
    (ptyOk : Bool) : ChildInteraction :=
  { argv := argv, indata := indata, stdinMode := runStdinMode indata ptyOk,
    pump := PumpKind.selectPump }

/-- The interaction of `put_file` (once the local file exists): the source
hands its composed argv to `self._run` and drains with `self._communicate`. -/
def putFileInteraction (password : String) (rfd : Nat) (common : List String)
    (scpIfSsh : Bool) (host inp outp : String) (ptyOk : Bool) : ChildInteraction :=
  let c := putFileCmd (passwordCmd password rfd) common scpIfSsh host inp outp
  runCommunicateInteraction c.1 c.2 ptyOk

/-- The interaction of `fetch_file`: the source spawns the child directly with
`subprocess.Popen(..., stdin=subprocess.PIPE, ...)` (no pty attempt) and
drains it with the blocking `p.communicate(indata)`. -/
def fetchFileInteraction (password : String) (rfd : Nat) (common : List String)
    (scpIfSsh batchMode : Bool) (host inp outp : String) : ChildInteraction :=
  let c := fetchFileCmd (passwordCmd password rfd) common scpIfSsh batchMode host inp outp
  { argv := c.1, indata := c.2, stdinMode := StdinMode.pipe,
    pump := PumpKind.blockingCommunicate }

/-! ## `put_file` with its observable effects -/

/-- Observable side effects of a transfer operation, in order. -/
inductive Effect where
  | sshpassProbe
  | mkPipe (rfd wfd : Nat)
  | spawn (argv : List String) (mode : StdinMode)
  | writePassword
deriving Repr, DecidableEq

/-- Errors raised by the transfer operations. -/
inductive TransferErr where
  | fileNotFound (msg : String)
  | sshpassMissing
  | pumpErr (e : ExecErr)
  | transferFailed (rc : Int)
deriving Repr, DecidableEq

/-- The connection state mutated by `_password_cmd` (the password pipe fds). -/
structure PwState where
  rfd : Option Nat := none
  wfd : Option Nat := none
deriving Repr, DecidableEq

/-- `Connection.put_file` as a function from its scripted externals to the
result, the ordered effect list, and the final fd state.  The local-existence
check precedes `_password_cmd`, so a missing local file raises before any
child (including the sshpass availability probe) is started. -/
def put_file (localExists sshpassAvailable : Bool) (password : String)
    (newRfd newWfd : Nat) (common : List String) (scpIfSsh : Bool)
    (host inp outp : String) (caps : EscCaps) (become : Bool) (becomePass : String)
    (tr : ExecTrace) (ptyOk : Bool) (st : PwState) :
    Except TransferErr Unit × List Effect × PwState :=
  if !localExists then
    (Except.error (TransferErr.fileNotFound ("file or module does not exist: " ++ inp)),
     [], st)
  else if password ≠ "" && !sshpassAvailable then
    (Except.error TransferErr.sshpassMissing, [Effect.sshpassProbe], st)
  else
    let pwEffects := if password ≠ "" then [Effect.sshpassProbe, Effect.mkPipe newRfd newWfd] else []
    let st' := if password ≠ "" then { rfd := some newRfd, wfd := some newWfd : PwState } else st
    let c := putFileCmd (passwordCmd password newRfd) common scpIfSsh host inp outp
    let spawnEffects := pwEffects ++ [Effect.spawn c.1 (runStdinMode c.2 ptyOk)] ++
      (if password ≠ "" then [Effect.writePassword] else [])
    match communicate caps become true becomePass c.2 tr.stdinWriteOk tr.pumpEvents tr.rc with
    | Except.error e => (Except.error (TransferErr.pumpErr e), spawnEffects, st')
    | Except.ok (rc, _, _) =>
      if rc ≠ 0 then (Except.error (TransferErr.transferFailed rc), spawnEffects, st')
      else (Except.ok (), spawnEffects, st')

/-! ## The `add_host` action plugin -/

/-- Lookup in a Python-dict-like association list. -/
def dictGet (d : List (String × String)) (k : String) : Option String :=
  match d.find? (fun kv => kv.1 == k) with
  | some kv => some kv.2
  | none => none

/-- Key-presence test. -/
def dictHas (d : List (String × String)) (k : String) : Bool :=
  d.any (fun kv => kv.1 == k)

/-- Python `d[k] = v`: replace the value of an existing key, else append. -/
def dictSet (d : List (String × String)) (k v : String) : List (String × String) :=
  if dictHas d k then d.map (fun kv => if kv.1 == k then (k, v) else kv)
  else d ++ [(k, v)]

/-- Split a character list at its last colon. -/
def lastColonSplit : List Char → Option (List Char × List Char)
  | [] => none
  | c :: t =>
    match lastColonSplit t with
    | some (a, b) => some (c :: a, b)
    | none => if c == ':' then some ([], t) else none

/-- Modelled from the spec: `parse_address` (from
`ansible.parsing.utils.addresses`, whose source is not part of this
repository) parses a `host[:port]` pattern, returning the host and the
optional port carried after the colon. -/
def parse_address (s : String) : String × Option String :=
  match lastColonSplit s.data with
  | some (a, b) =>
    if b ≠ [] && b.all Char.isDigit then (String.mk a, some (String.mk b))
    else (s, none)
  | none => (s, none)

/-- The group-list construction of `add_host.run`: membership is tested on
the raw comma fragment, the stripped fragment is appended. -/
def buildGroups : List String → List String → List String
  | [], acc => acc
  | g :: t, acc =>
    if acc.contains g then buildGroups t acc else buildGroups t (acc ++ [pyStrip g])

/-- The inventory-mutation record returned by `add_host`. -/
structure AddHostResult where
  host_name : String
  groups : List String
  host_vars : List (String × String)
deriving Repr, DecidableEq

/-- `add_host.run` either skips (check mode) or adds a host. -/
inductive AddHostOutcome where
  | skipped
  | added (r : AddHostResult)
deriving Repr, DecidableEq

/-- The keys `add_host.run` withholds from `host_vars` (note: `group` is not
among them). -/
def addHostExcluded : List String := ["name", "hostname", "groupname", "groups"]

/-- The `name`/`hostname` lookup of `add_host.run`. -/
def addHostName (args : List (String × String)) : Option String :=
  match dictGet args "name" with
  | some v => some v
  | none => dictGet args "hostname"

/-- The task args after promoting a parsed port to `ansible_ssh_port`. -/
def addHostArgs1 (args : List (String × String)) (port : Option String) :
    List (String × String) :=
  match port with
  | some p => dictSet args "ansible_ssh_port" p
  | none => args

/-- The group list: `groupname`, else `groups`, else `group`, split on commas
and deduplicated. -/
def addHostGroups (args1 : List (String × String)) : List String :=
  let groupsStr :=
    (dictGet args1 "groupname").getD
      ((dictGet args1 "groups").getD ((dictGet args1 "group").getD ""))
  if groupsStr ≠ "" then buildGroups (groupsStr.splitOn ",") [] else []

/-- The host variables: every task arg whose key is not excluded. -/
def addHostVars (args1 : List (String × String)) : List (String × String) :=
  args1.filter (fun kv => !(addHostExcluded.contains kv.1))

/-- `ActionModule.run` of the `add_host` plugin: parse `name`/`hostname`,
promote a parsed port into the task args as `ansible_ssh_port`, read the
group list from `groupname`/`groups`/`group`, and return every remaining task
arg as a host variable. -/
def add_host (checkMode : Bool) (args : List (String × String)) :
    Except String AddHostOutcome :=
  if checkMode then Except.ok AddHostOutcome.skipped
  else
    match addHostName args with
    | none => Except.error "Invalid inventory hostname: None"
    | some nn =>
      let pr := parse_address nn
      if pr.1 = "" then Except.error ("Invalid inventory hostname: " ++ nn)
      else
        Except.ok (AddHostOutcome.added
          ⟨pr.1, addHostGroups (addHostArgs1 args pr.2),
            addHostVars (addHostArgs1 args pr.2)⟩)

/-! ## Generic helper lemmas -/

theorem take_ne_imp (n : Nat) {s t : String} (h : s.data.take n ≠ t.data.take n) :
    s ≠ t :=
  fun e => h (by rw [e])

theorem listPre_of_append (p q : List Char) :
    ∀ l, listPre (p ++ q) l = true → listPre p l = true := by
  induction p with
  | nil => intro l _; rfl
  | cons a p ih =>
    intro l h
    cases l with
    | nil => simp [listPre] at h
    | cons b l =>
      simp only [List.cons_append, listPre, Bool.and_eq_true] at h ⊢
      exact ⟨h.1, ih l h.2⟩

theorem listPre_refl (l : List Char) : listPre l l = true := by
  induction l with
  | nil => rfl
  | cons a t ih => simp [listPre, ih]

theorem listPre_bracket (l : List Char) :
    ∀ r, listPre ('[' :: (l ++ [']'])) (l ++ ':' :: r) = false := by
  induction l with
  | nil => intro r; rfl
  | cons c t ih =>
    intro r
    by_cases hc : c = '['
    · subst hc
      have hstep : listPre ('[' :: (('[' :: t) ++ [']'])) (('[' :: t) ++ ':' :: r) =
          listPre ('[' :: (t ++ [']'])) (t ++ ':' :: r) := by
        simp [listPre]
      rw [hstep, ih r]
    · have hbe : (('[' : Char) == c) = false := by
        cases hbeq : ('[' : Char) == c
        · rfl
        · exact absurd (eq_of_beq hbeq).symm hc
      simp [listPre, hbe]

/-! ## C1: the retry wrapper -/

theorem execRetryGo_all255 (outs errs : Nat → String) (last : Nat) :
    ∀ fuel attempt, 0 < fuel → attempt + fuel = last + 1 →
      execRetryGo (fun k => ExecOutcome.ok 255 (outs k) (errs k)) last attempt fuel =
        (Except.ok ((255 : Int), outs last, errs last), fuel,
          (List.range' attempt (fuel - 1)).map sshPause) := by
  intro fuel
  induction fuel with
  | zero => intro attempt h0 _; exact absurd h0 (by omega)
  | succ f ih =>
    intro attempt _ hsum
    by_cases hal : attempt = last
    · have hf0 : f = 0 := by omega
      subst hf0
      subst hal
      simp [execRetryGo]
    · have hf : 0 < f := by omega
      have hrec := ih (attempt + 1) hf (by omega)
      have hrange : List.range' attempt f = attempt :: List.range' (attempt + 1) (f - 1) := by
        conv_lhs => rw [show f = (f - 1) + 1 by omega]
        exact List.range'_succ attempt (f - 1) 1
      simp only [execRetryGo, hal, hrec]
      simp only [Nat.add_sub_cancel]
      rw [hrange, List.map_cons]
      simp

/-- C1: with `ANSIBLE_SSH_RETRIES = N` and every `_exec_command` attempt
returning exit code 255, `exec_command` invokes `_exec_command` exactly
`N + 1` times, sleeps `min(2^k - 1, 30)` seconds after the `k`-th failed
attempt for `k = 0 .. N-1` (the capped sequence 0, 1, 3, 7, 15, 30, 30, ...),
and after the last attempt returns the last attempt's result. -/
theorem C1_retry_count (N : Nat) (outs errs : Nat → String) :
    exec_command (fun k => ExecOutcome.ok 255 (outs k) (errs k)) N =
      (Except.ok ((255 : Int), outs N, errs N), N + 1,
        (List.range N).map (fun k => min (2 ^ k - 1) 30)) := by
  have h := execRetryGo_all255 outs errs N (N + 1) 0 (by omega) (by omega)
  have hfun : sshPause = fun k => min (2 ^ k - 1) 30 := rfl
  have hr : (List.range' 0 (N + 1 - 1)).map sshPause =
      (List.range N).map (fun k => min (2 ^ k - 1) 30) := by
    rw [Nat.add_sub_cancel, ← List.range_eq_range', hfun]
  rw [exec_command, h, hr]

/-! ## C7: `put_file` with a missing local file -/

/-- C7: when the local `in_path` does not exist, `put_file` raises the
file-not-found error before `_password_cmd` runs: no child process (not even
the sshpass availability probe) is spawned, no pipe is created, and the
connection's fd state is unchanged. -/
theorem C7_put_file_missing_local (sshpassAvailable : Bool) (password : String)
    (newRfd newWfd : Nat) (common : List String) (scpIfSsh : Bool)
    (host inp outp : String) (caps : EscCaps) (become : Bool) (becomePass : String)
    (tr : ExecTrace) (ptyOk : Bool) (st : PwState) :
    put_file false sshpassAvailable password newRfd newWfd common scpIfSsh host inp
        outp caps become becomePass tr ptyOk st =
      (Except.error (TransferErr.fileNotFound ("file or module does not exist: " ++ inp)),
       [], st) := by
  rfl

/-! ## C8: launcher and pump composition of the transfer operations -/

/-- C8 counterexample: the claim says both transfer operations are
behaviourally equal to the `_run` / `_communicate` composition, but
`fetch_file` (here in scp mode, with no stdin data) spawns its child with a
plain pipe stdin instead of `_run`'s pty attempt and drains it with the
blocking `p.communicate` instead of the select pump. -/
theorem C8_counterexample :
    fetchFileInteraction "" 0 [] true true "host" "/r" "/l" ≠
      runCommunicateInteraction (fetchFileCmd [] [] true true "host" "/r" "/l").1
        (fetchFileCmd [] [] true true "host" "/r" "/l").2 true := by
  decide

/-- C8 (amended): `put_file` drives its child through the same `_run` +
`_communicate` composition as `exec_command`, but `fetch_file` does not: it
never uses the select pump (`_communicate`), spawning directly with pipes and
draining with blocking `communicate`, so it is not equal to the composition
for any pty outcome. -/
theorem C8_amended (password : String) (rfd : Nat) (common : List String)
    (scpIfSsh batchMode : Bool) (host inp outp : String) (ptyOk : Bool) :
    putFileInteraction password rfd common scpIfSsh host inp outp ptyOk =
      runCommunicateInteraction
        (putFileCmd (passwordCmd password rfd) common scpIfSsh host inp outp).1
        (putFileCmd (passwordCmd password rfd) common scpIfSsh host inp outp).2 ptyOk ∧
    (fetchFileInteraction password rfd common scpIfSsh batchMode host inp outp).pump ≠
      PumpKind.selectPump ∧
    fetchFileInteraction password rfd common scpIfSsh batchMode host inp outp ≠
      runCommunicateInteraction
        (fetchFileCmd (passwordCmd password rfd) common scpIfSsh batchMode host inp outp).1
        (fetchFileCmd (passwordCmd password rfd) common scpIfSsh batchMode host inp outp).2
        ptyOk := by
  refine ⟨rfl, by simp [fetchFileInteraction], ?_⟩
  intro h
  have hp := congrArg ChildInteraction.pump h
  simp [fetchFileInteraction, runCommunicateInteraction] at hp

/-! ## C9: `fetch_file` leaves the host unbracketed -/

/-- C9: `fetch_file` composes its argv with the host unbracketed: under scp
the tail is the token `host:in_path` followed by `out_path`; under sftp the
bare host token is appended after the optional batch-mode flags; and the
host-carrying token is never of the bracketed form `[host]` or
`[host]:<...>` that `put_file` produces. -/
theorem C9_fetch_unbracketed (pw common : List String) (batch : Bool)
    (hst inp outp : String) :
    fetchFileCmd pw common true batch hst inp outp =
      (pw ++ ["scp"] ++ common ++ [hst ++ ":" ++ inp, outp], none) ∧
    fetchFileCmd pw common false batch hst inp outp =
      (pw ++ ["sftp"] ++ (if batch then ["-b", "-"] else []) ++ common ++ [hst],
       some ("get " ++ inp ++ " " ++ outp ++ "\n")) ∧
    strPre ("[" ++ hst ++ "]") (hst ++ ":" ++ inp) = false ∧
    hst ≠ "[" ++ hst ++ "]" := by
  refine ⟨rfl, rfl, ?_, ?_⟩
  · show listPre ("[" ++ hst ++ "]").data (hst ++ ":" ++ inp).data = false
    have h1 : ("[" ++ hst ++ "]").data = '[' :: (hst.data ++ [']']) := by
      rw [String.data_append, String.data_append]
      rfl
    have h2 : (hst ++ ":" ++ inp).data = hst.data ++ ':' :: inp.data := by
      rw [String.data_append, String.data_append, List.append_assoc]
      rfl
    rw [h1, h2]
    exact listPre_bracket hst.data inp.data
  · intro e
    have hl := congrArg String.length e
    rw [String.length_append, String.length_append] at hl
    have h1 : ("[" : String).length = 1 := rfl
    have h2 : ("]" : String).length = 1 := rfl
    omega

/-! ## Characterising successful `_connect` runs -/

theorem connect_ok_iff (env : ConnectEnv) (fs : FileSystem) (args : List String)
    (cp : Option String) (fs' : FileSystem) :
    connect env fs = Except.ok (args, cp, fs') ↔
      args = connectCommonArgs env ∧
      cp = (if addCp env then some (cpDir env) else none) ∧
      fs' = connectFs env fs ∧
      (addCp env && !((connectFs env fs).writable (cpDir env))) = false := by
  unfold connect
  by_cases hg : (addCp env && !((connectFs env fs).writable (cpDir env))) = true
  · rw [if_pos hg]
    constructor
    · intro h
      exact absurd h (by simp)
    · rintro ⟨-, -, -, h4⟩
      rw [hg] at h4
      cases h4
  · rw [if_neg hg]
    simp only [Bool.not_eq_true] at hg
    constructor
    · intro h
      simp only [Except.ok.injEq, Prod.mk.injEq] at h
      exact ⟨h.1.symm, h.2.1.symm, h.2.2.symm, hg⟩
    · rintro ⟨h1, h2, h3, -⟩
      subst h1
      subst h2
      subst h3
      rfl

/-! ## Tokens that can never equal an auth-restriction option -/

/-- Bundles the three auth-lockdown option values a token must differ from. -/
def notAuth (t : String) : Prop := t ≠ kbdOpt ∧ t ≠ prefAuthOpt ∧ t ≠ pwAuthOpt

theorem notAuth_dash_o : notAuth "-o" := by
  refine ⟨?_, ?_, ?_⟩ <;> decide

theorem notAuth_strict : notAuth "StrictHostKeyChecking=no" := by
  refine ⟨?_, ?_, ?_⟩ <;> decide

theorem notAuth_port (x : String) : notAuth ("Port=" ++ x) := by
  obtain ⟨xd⟩ := x
  refine ⟨take_ne_imp 1 ?_, take_ne_imp 2 ?_, take_ne_imp 2 ?_⟩
  · show (['P'] : List Char) ≠ ['K']
    decide
  · show (['P', 'o'] : List Char) ≠ ['P', 'r']
    decide
  · show (['P', 'o'] : List Char) ≠ ['P', 'a']
    decide

theorem notAuth_identity (x : String) : notAuth ("IdentityFile=\"" ++ x ++ "\"") := by
  obtain ⟨xd⟩ := x
  refine ⟨take_ne_imp 1 ?_, take_ne_imp 1 ?_, take_ne_imp 1 ?_⟩
  · show (['I'] : List Char) ≠ ['K']
    decide
  · show (['I'] : List Char) ≠ ['P']
    decide
  · show (['I'] : List Char) ≠ ['P']
    decide

theorem notAuth_user (x : String) : notAuth ("User=" ++ x) := by
  obtain ⟨xd⟩ := x
  refine ⟨take_ne_imp 1 ?_, take_ne_imp 1 ?_, take_ne_imp 1 ?_⟩
  · show (['U'] : List Char) ≠ ['K']
    decide
  · show (['U'] : List Char) ≠ ['P']
    decide
  · show (['U'] : List Char) ≠ ['P']
    decide

theorem notAuth_timeout (x : String) : notAuth ("ConnectTimeout=" ++ x) := by
  obtain ⟨xd⟩ := x
  refine ⟨take_ne_imp 1 ?_, take_ne_imp 1 ?_, take_ne_imp 1 ?_⟩
  · show (['C'] : List Char) ≠ ['K']
    decide
  · show (['C'] : List Char) ≠ ['P']
    decide
  · show (['C'] : List Char) ≠ ['P']
    decide

theorem notAuth_cpToken (x : String) : notAuth ("ControlPath=\"" ++ x ++ "\"") := by
  obtain ⟨xd⟩ := x
  refine ⟨take_ne_imp 1 ?_, take_ne_imp 1 ?_, take_ne_imp 1 ?_⟩
  · show (['C'] : List Char) ≠ ['K']
    decide
  · show (['C'] : List Char) ≠ ['P']
    decide
  · show (['C'] : List Char) ≠ ['P']
    decide

theorem connectPostCp_not_auth (env : ConnectEnv) (hpw : env.pc.password ≠ "")
    (hextra : ∀ t ∈ extraArgs env, notAuth t) :
    ∀ t ∈ connectPostCpArgs env, notAuth t := by
  intro t ht
  unfold connectPostCpArgs at ht
  simp only [List.mem_append] at ht
  rcases ht with ((((((h | h) | h) | h) | h) | h) | h)
  · unfold hostKeyArgs at h
    split at h
    · simp at h
      rcases h with h | h <;> subst h
      · exact notAuth_dash_o
      · exact notAuth_strict
    · simp at h
  · unfold portArgs at h
    split at h
    · rename_i p _
      simp at h
      rcases h with h | h <;> subst h
      · exact notAuth_dash_o
      · exact notAuth_port _
    · simp at h
  · unfold identityArgs at h
    split at h
    · simp at h
      rcases h with h | h <;> subst h
      · exact notAuth_dash_o
      · exact notAuth_identity _
    · simp at h
  · unfold authArgs at h
    rw [if_neg hpw] at h
    simp at h
  · unfold userArgs at h
    split at h
    · simp at h
      rcases h with h | h <;> subst h
      · exact notAuth_dash_o
      · exact notAuth_user _
    · simp at h
  · unfold timeoutArgs at h
    simp at h
    rcases h with h | h <;> subst h
    · exact notAuth_dash_o
    · exact notAuth_timeout _
  · exact hextra t h

theorem connectCommon_not_auth (env : ConnectEnv) (hpw : env.pc.password ≠ "")
    (hbase : ∀ t ∈ connectBaseArgs env, notAuth t)
    (hextra : ∀ t ∈ extraArgs env, notAuth t) :
    ∀ t ∈ connectCommonArgs env, notAuth t := by
  intro t ht
  unfold connectCommonArgs at ht
  simp only [List.mem_append] at ht
  rcases ht with (h | h) | h
  · exact hbase t h
  · unfold cpArgs at h
    split at h
    · simp at h
      rcases h with h | h <;> subst h
      · exact notAuth_dash_o
      · exact notAuth_cpToken _
    · simp at h
  · exact connectPostCp_not_auth env hpw hextra t h

/-- C2: for every connect environment whose user-controlled argument strings
do not themselves smuggle in an auth-lockdown option, when the password is
empty the composed argv contains the three tokens
`KbdInteractiveAuthentication=no`, `PreferredAuthentications=...` and
`PasswordAuthentication=no`; when the password is set the composed argv
contains none of them, and the child argv built by `_exec_command` begins
with the two tokens `sshpass` and `-d<rfd>`, `rfd` being the read end of the
password pipe. -/
theorem C2_password_auth (env : ConnectEnv) (rfd : Nat) (host cmd : String)
    (in_data : Option String)
    (hbase : ∀ t ∈ connectBaseArgs env, t ≠ kbdOpt ∧ t ≠ prefAuthOpt ∧ t ≠ pwAuthOpt)
    (hextra : ∀ t ∈ extraArgs env, t ≠ kbdOpt ∧ t ≠ prefAuthOpt ∧ t ≠ pwAuthOpt) :
    (env.pc.password = "" →
      kbdOpt ∈ connectCommonArgs env ∧ prefAuthOpt ∈ connectCommonArgs env ∧
        pwAuthOpt ∈ connectCommonArgs env) ∧
    (env.pc.password ≠ "" →
      (kbdOpt ∉ connectCommonArgs env ∧ prefAuthOpt ∉ connectCommonArgs env ∧
        pwAuthOpt ∉ connectCommonArgs env) ∧
      (execSshCmd env.pc.password rfd env.pc.verbosity (connectCommonArgs env) host cmd
          in_data).take 2 = ["sshpass", "-d" ++ toString rfd]) := by
  constructor
  · intro hp
    have hmem : ∀ u ∈ authLockdownArgs, u ∈ connectCommonArgs env := by
      intro u hu
      have hu' : u ∈ authArgs env := by
        unfold authArgs
        rw [if_pos hp]
        exact hu
      unfold connectCommonArgs connectPostCpArgs
      simp only [List.mem_append]
      tauto
    refine ⟨hmem kbdOpt ?_, hmem prefAuthOpt ?_, hmem pwAuthOpt ?_⟩ <;>
      simp [authLockdownArgs]
  · intro hp
    have hall := connectCommon_not_auth env hp hbase hextra
    refine ⟨⟨fun hm => (hall _ hm).1 rfl, fun hm => (hall _ hm).2.1 rfl,
      fun hm => (hall _ hm).2.2 rfl⟩, ?_⟩
    unfold execSshCmd passwordCmd
    rw [if_pos hp]
    rfl

/-- Sample environment with every field at its default (no password). -/
def envNoPass : ConnectEnv := {}

/-- Sample environment with a password configured. -/
def envWithPass : ConnectEnv := { pc := { password := "secret" } }

/-- Witness for C2 at concrete inputs: the lockdown options are present
without a password and absent with one, and the password argv starts with
`sshpass -d7`. -/
theorem C2_witness :
    (kbdOpt ∈ connectCommonArgs envNoPass ∧ prefAuthOpt ∈ connectCommonArgs envNoPass ∧
      pwAuthOpt ∈ connectCommonArgs envNoPass) ∧
    (kbdOpt ∉ connectCommonArgs envWithPass ∧ prefAuthOpt ∉ connectCommonArgs envWithPass ∧
      pwAuthOpt ∉ connectCommonArgs envWithPass) ∧
    (execSshCmd envWithPass.pc.password 7 envWithPass.pc.verbosity
        (connectCommonArgs envWithPass) "h" "c" none).take 2 = ["sshpass", "-d7"] := by
  refine ⟨(C2_password_auth envNoPass 7 "h" "c" none (by decide) (by decide)).1 rfl, ?_, ?_⟩
  · exact ((C2_password_auth envWithPass 7 "h" "c" none (by decide) (by decide)).2
      (by decide)).1
  · exact ((C2_password_auth envWithPass 7 "h" "c" none (by decide) (by decide)).2
      (by decide)).2

/-! ## C4: host `ansible_ssh_args` shadow the global `ANSIBLE_SSH_ARGS` -/

/-- C4: when the per-host `ansible_ssh_args` is non-empty, the result of
`_connect` is unchanged by any value of the global `ANSIBLE_SSH_ARGS` (so no
token can originate from it), and the composed `common_args` start with the
tokens split from the host value. -/
theorem C4_host_args_precedence (env : ConnectEnv) (s : String) (fs : FileSystem)
    (h : env.hv.ansible_ssh_args ≠ "") :
    connect { env with gc := { env.gc with ANSIBLE_SSH_ARGS := s } } fs = connect env fs ∧
    (∀ args cp fs', connect env fs = Except.ok (args, cp, fs') →
      ∃ rest, args = splitArgs env.hv.ansible_ssh_args ++ rest) := by
  constructor
  · simp [connect, connectFs, connectCommonArgs, connectBaseArgs, connectPostCpArgs,
      addCp, cpArgs, cpToken, cpDir, hostKeyArgs, portArgs, identityArgs, authArgs,
      userArgs, timeoutArgs, extraArgs, h]
  · intro args cp fs' hok
    obtain ⟨hargs, -, -, -⟩ := (connect_ok_iff env fs args cp fs').mp hok
    refine ⟨cpArgs env ++ connectPostCpArgs env, ?_⟩
    rw [hargs]
    unfold connectCommonArgs connectBaseArgs
    rw [if_pos h, List.append_assoc]

/-- Sample environment whose host vars set `ansible_ssh_args`. -/
def envHostArgs : ConnectEnv := { hv := { ansible_ssh_args := "-o Foo=1" } }

/-- Sample filesystem where every directory is writable and none exists yet. -/
def fsW : FileSystem := { dirMode := fun _ => none, writable := fun _ => true }

/-- Witness for C4 at concrete inputs: with host args `-o Foo=1` the global
value `-o Global=1` leaves `_connect` unchanged, and the composed args start
with the split host tokens. -/
theorem C4_witness :
    connect { envHostArgs with gc := { envHostArgs.gc with ANSIBLE_SSH_ARGS := "-o Global=1" } }
        fsW = connect envHostArgs fsW ∧
    (∃ rest, connectCommonArgs envHostArgs = splitArgs "-o Foo=1" ++ rest) := by
  have h := C4_host_args_precedence envHostArgs "-o Global=1" fsW (by decide)
  refine ⟨h.1, ?_⟩
  have hok : connect envHostArgs fsW =
      Except.ok (connectCommonArgs envHostArgs, none, fsW) := by rfl
  obtain ⟨rest, hr⟩ := h.2 (connectCommonArgs envHostArgs) none fsW hok
  exact ⟨rest, hr⟩

/-! ## C3: ControlPath iff ControlPersist -/

theorem cpToken_contains_cp (env : ConnectEnv) :
    strContains (cpToken env) "ControlPath" = true := by
  unfold cpToken strContains
  generalize env.gc.ANSIBLE_SSH_CONTROL_PATH (cpDir env) = x
  obtain ⟨xd⟩ := x
  rfl

theorem connectCommon_cp_iff (env : ConnectEnv)
    (hpost : ∀ t ∈ connectPostCpArgs env,
      strContains t "ControlPersist" = false ∧ strContains t "ControlPath" = false)
    (hcp : strContains (cpToken env) "ControlPersist" = false) :
    ((connectCommonArgs env).any (fun a => strContains a "ControlPath") = true ↔
      (connectCommonArgs env).any (fun a => strContains a "ControlPersist") = true ∨
        (connectBaseArgs env).any (fun a => strContains a "ControlPath") = true) := by
  have hdoP : strContains "-o" "ControlPath" = false := by decide
  have hdoQ : strContains "-o" "ControlPersist" = false := by decide
  have hpostP : (connectPostCpArgs env).any (fun a => strContains a "ControlPath") = false := by
    rw [List.any_eq_false]
    intro t ht
    simp [(hpost t ht).2]
  have hpostQ : (connectPostCpArgs env).any (fun a => strContains a "ControlPersist") = false := by
    rw [List.any_eq_false]
    intro t ht
    simp [(hpost t ht).1]
  have hcpP : (cpArgs env).any (fun a => strContains a "ControlPath") = addCp env := by
    by_cases h : addCp env <;> simp [cpArgs, h, hdoP, cpToken_contains_cp env]
  have hcpQ : (cpArgs env).any (fun a => strContains a "ControlPersist") = false := by
    by_cases h : addCp env <;> simp [cpArgs, h, hdoQ, hcp]
  have haddcp : addCp env =
      ((connectBaseArgs env).any (fun a => strContains a "ControlPersist") &&
        !((connectBaseArgs env).any (fun a => strContains a "ControlPath"))) := rfl
  unfold connectCommonArgs
  simp only [List.any_append, hpostP, hpostQ, hcpP, hcpQ, haddcp]
  cases (connectBaseArgs env).any (fun a => strContains a "ControlPersist") <;>
    cases (connectBaseArgs env).any (fun a => strContains a "ControlPath") <;>
    simp

/-- C3 (amended): after a successful `_connect`, `common_args` contains an
argument mentioning `ControlPath` iff it contains one mentioning
`ControlPersist` or the base args already carried a user-supplied
`ControlPath`, provided no fragment appended after the fix-up (extra args,
key path, user, ...) and no expanded ControlPath template mentions either
option — the fix-up scans only the base args, so such fragments can break
the equivalence.  Moreover, whenever the transport itself appended the
`ControlPath` option, the control-path directory exists with mode `0700` and
is writable before any child is spawned (otherwise `_connect` fails). -/
theorem C3_controlpath_iff (env : ConnectEnv) (fs : FileSystem)
    (hpost : ∀ t ∈ connectPostCpArgs env,
      strContains t "ControlPersist" = false ∧ strContains t "ControlPath" = false)
    (hcp : strContains (cpToken env) "ControlPersist" = false) :
    ∀ args cp fs', connect env fs = Except.ok (args, cp, fs') →
      ((args.any (fun a => strContains a "ControlPath") = true ↔
        args.any (fun a => strContains a "ControlPersist") = true ∨
          (connectBaseArgs env).any (fun a => strContains a "ControlPath") = true) ∧
       ∀ d, cp = some d → fs'.dirMode d = some 0o700 ∧ fs'.writable d = true) := by
  intro args cp fs' hok
  obtain ⟨hargs, hcpE, hfs, hguard⟩ := (connect_ok_iff env fs args cp fs').mp hok
  subst hargs
  subst hcpE
  subst hfs
  refine ⟨connectCommon_cp_iff env hpost hcp, ?_⟩
  intro d hd
  by_cases hac : addCp env
  · rw [if_pos hac] at hd
    have hdd : d = cpDir env := (Option.some.injEq _ _ ▸ hd).symm
    subst hdd
    rw [hac] at hguard
    simp only [Bool.true_and, Bool.not_eq_false', Bool.not_eq_false] at hguard
    constructor
    · unfold connectFs
      rw [if_pos hac]
      unfold makedirs_safe
      simp
    · exact hguard
  · rw [if_neg hac] at hd
    cases hd

/-- C3 counterexample: with host args `-o Foo=1` and command-line extra args
`-o ControlPersist=60s`, `_connect` succeeds and the composed args mention
`ControlPersist` but no argument mentions `ControlPath` (and none was
user-supplied): the claimed equivalence fails because the fix-up scans only
the base args. -/
def envCpExtra : ConnectEnv :=
  { pc := { ssh_extra_args := "-o ControlPersist=60s" },
    hv := { ansible_ssh_args := "-o Foo=1" } }

theorem C3_counterexample :
    connect envCpExtra fsW = Except.ok (connectCommonArgs envCpExtra, none, fsW) ∧
    (connectCommonArgs envCpExtra).any (fun a => strContains a "ControlPersist") = true ∧
    (connectCommonArgs envCpExtra).any (fun a => strContains a "ControlPath") = false := by
  refine ⟨rfl, by decide, by decide⟩

/-- Witness for C3 (amended) at concrete inputs: in the default environment
the fix-up runs, the equivalence holds, and the created control directory has
mode `0700` and is writable. -/
theorem C3_witness :
    ((connectCommonArgs envNoPass).any (fun a => strContains a "ControlPath") = true ↔
      (connectCommonArgs envNoPass).any (fun a => strContains a "ControlPersist") = true ∨
        (connectBaseArgs envNoPass).any (fun a => strContains a "ControlPath") = true) ∧
    (connectFs envNoPass fsW).dirMode (cpDir envNoPass) = some 0o700 ∧
    (connectFs envNoPass fsW).writable (cpDir envNoPass) = true := by
  have h := C3_controlpath_iff envNoPass fsW (by decide) (by decide)
    (connectCommonArgs envNoPass) (some (cpDir envNoPass)) (connectFs envNoPass fsW) rfl
  exact ⟨h.1, h.2 (cpDir envNoPass) rfl⟩

/-! ## C5: handshake buffers and the returned output -/

/-- C5 (amended): when `prompt` is non-empty and the escalation handshake
exits without detecting a password prompt (`passprompt = false`, i.e. via the
success marker or EOF), the stdout returned by `_exec_command` is the
handshake's accumulated stdout concatenated with the pump's stdout (likewise
for stderr); when a password prompt was detected the accumulated buffers are
discarded and the returned streams are the pump's alone. -/
theorem C5_handshake_output (pc : PlayContext) (caps : EscCaps) (common : List String)
    (host cmd : String) (in_data : Option String) (sudoable hostKeyChecking : Bool)
    (rfd : Nat) (tr : ExecTrace) (pp : Bool) (bo be so se : String)
    (hprompt : pc.prompt ≠ "")
    (hhs : handshakeLoop caps tr.hsEvents "" "" = Except.ok (pp, bo, be))
    (hcm : communicate caps pc.become sudoable pc.become_pass in_data tr.stdinWriteOk
      tr.pumpEvents tr.rc = Except.ok (tr.rc, so, se))
    (h1 : (hostKeyChecking &&
      ((execSshCmd pc.password rfd pc.verbosity common host cmd in_data).head? =
        some "sshpass") && (tr.rc = (6 : Int))) = false)
    (h2 : (tr.rc ≠ (0 : Int) &&
      (strContains se "Bad configuration option: ControlPersist" ||
       strContains se "unknown configuration option: ControlPersist")) = false)
    (h3 : (tr.rc = (255 : Int) && indataTruthy in_data) = false) :
    execCommandOnce pc caps common host cmd in_data sudoable hostKeyChecking rfd tr =
      Except.ok (tr.rc, "", (if pp then "" else bo) ++ so,
        (if pp then "" else be) ++ se) := by
  have h2' : ¬tr.rc = 0 →
      strContains se "Bad configuration option: ControlPersist" = false ∧
      strContains se "unknown configuration option: ControlPersist" = false := by
    intro hne
    rcases Bool.and_eq_false_iff.mp h2 with hl | hr
    · simp at hl
      exact absurd hl hne
    · exact Bool.or_eq_false_iff.mp hr
  unfold execCommandOnce
  rw [if_pos hprompt, hhs, hcm]
  cases pp <;> (simp [hprompt, h1, h3]; exact h2')

/-- Escalation predicates that fire on a `PROMPT!` marker. -/
def capsPrompt : EscCaps :=
  { checkBecomeSuccess := fun _ => false,
    checkPasswordPrompt := fun s => strContains s "PROMPT!",
    checkIncorrectPassword := fun _ => false }

/-- Escalation predicates that never fire. -/
def capsNever : EscCaps :=
  { checkBecomeSuccess := fun _ => false,
    checkPasswordPrompt := fun _ => false,
    checkIncorrectPassword := fun _ => false }

/-- A play context requesting escalation-prompt handling. -/
def pcPrompt : PlayContext := { prompt := "PROMPT!" }

/-- A pump trace delivering `OUT` on stdout and then exiting. -/
def pumpOutOnly : List PumpEvent :=
  [{ errReady := false, outReady := true, errData := "", outData := "OUT", exited := false },
   { errReady := false, outReady := false, errData := "", outData := "", exited := true }]

/-- Externals for a run whose handshake sees the password prompt. -/
def trPrompt : ExecTrace :=
  { hsEvents := [SelEvent.outChunk "PROMPT!"], pumpEvents := pumpOutOnly, rc := 0,
    stdinWriteOk := true }

/-- Externals for a run whose handshake reads a banner and then EOF. -/
def trBanner : ExecTrace :=
  { hsEvents := [SelEvent.outChunk "BANNER", SelEvent.outChunk ""],
    pumpEvents := pumpOutOnly, rc := 0, stdinWriteOk := true }

/-- C5 counterexample: the handshake accumulates `PROMPT!` on stdout and ends
with `passprompt = true`; the pump returns `OUT`; yet `_exec_command` returns
stdout `OUT`, not the claimed concatenation `PROMPT!OUT` — the accumulated
buffers are discarded on the password-prompt path. -/
theorem C5_counterexample :
    handshakeLoop capsPrompt [SelEvent.outChunk "PROMPT!"] "" "" =
      Except.ok (true, "PROMPT!", "") ∧
    communicate capsPrompt false true "" none true pumpOutOnly 0 =
      Except.ok ((0 : Int), "OUT", "") ∧
    execCommandOnce pcPrompt capsPrompt [] "h" "c" none true true 0 trPrompt =
      Except.ok ((0 : Int), "", "OUT", "") ∧
    ("OUT" : String) ≠ "PROMPT!" ++ "OUT" := by
  refine ⟨rfl, rfl, rfl, by decide⟩

/-- Witness for C5 (amended) at concrete inputs: a banner accumulated without
a password prompt prefixes the pump's stdout in the returned output. -/
theorem C5_witness :
    execCommandOnce pcPrompt capsNever [] "h" "c" none true true 0 trBanner =
      Except.ok ((0 : Int), "", "BANNEROUT", "") := by
  have h := C5_handshake_output pcPrompt capsNever [] "h" "c" none true true 0 trBanner
    false "BANNER" "" "OUT" "" (by decide) rfl rfl (by decide) (by decide) (by decide)
  rw [h]
  rfl

/-! ## C6: IPv6 bracketing in `put_file` -/

theorem strPre_of_append (p q s : String) (h : strPre (p ++ q) s = true) :
    strPre p s = true := by
  unfold strPre at *
  rw [String.data_append] at h
  exact listPre_of_append p.data q.data s.data h

theorem brColonPre_false {t : String} (h : strPre "[::1]" t = false) :
    strPre "[::1]:" t = false := by
  cases hb : strPre "[::1]:" t
  · rfl
  · exfalso
    have hb' : strPre ("[::1]" ++ ":") t = true := hb
    rw [strPre_of_append "[::1]" ":" t hb'] at h
    cases h

/-- C6 counterexample: `put_file` to `::1` under the sftp transport (the
default, `DEFAULT_SCP_IF_SSH = false`) produces no `[::1]:<...>` token at
all — the bracketed host is passed bare and the paths travel on stdin — so
the argv does not contain exactly one such token in both transports. -/
theorem C6_counterexample :
    (putFileCmd [] ["-o", "ControlMaster=auto"] false "::1" "/tmp/f" "/dest").1.countP
      (fun t => strPre "[::1]:" t) ≠ 1 := by
  decide

/-- C6 (amended): for a `put_file` to host `::1` whose password prefix,
common args and local path do not themselves start with `[::1]`, the scp argv
contains exactly one token of the form `[::1]:<...>` (the bracketed host
joined to the quoted remote path), while the sftp argv contains no such token
but exactly one bare bracketed token `[::1]`. -/
theorem C6_bracketing (pw common : List String) (inp outp : String)
    (hcom : ∀ t ∈ pw ++ common, strPre "[::1]" t = false)
    (hin : strPre "[::1]" inp = false) :
    (putFileCmd pw common true "::1" inp outp).1.countP
      (fun t => strPre "[::1]:" t) = 1 ∧
    (putFileCmd pw common false "::1" inp outp).1.countP
      (fun t => strPre "[::1]:" t) = 0 ∧
    (putFileCmd pw common false "::1" inp outp).1.countP
      (fun t => t == "[::1]") = 1 := by
  have hpc1 : (pw ++ common).countP (fun t => strPre "[::1]:" t) = 0 := by
    rw [List.countP_eq_zero]
    intro t ht
    simp [brColonPre_false (hcom t ht)]
  have hpc2 : (pw ++ common).countP (fun t => t == "[::1]") = 0 := by
    rw [List.countP_eq_zero]
    intro t ht hbeq
    have ht' : t = "[::1]" := eq_of_beq hbeq
    rw [ht'] at ht
    have hself : strPre "[::1]" "[::1]" = true := by decide
    have hc := hcom "[::1]" ht
    rw [hself] at hc
    cases hc
  obtain ⟨hpw1, hc1⟩ : pw.countP (fun t => strPre "[::1]:" t) = 0 ∧
      common.countP (fun t => strPre "[::1]:" t) = 0 := by
    rw [List.countP_append] at hpc1
    omega
  obtain ⟨hpw2, hc2⟩ : pw.countP (fun t => t == "[::1]") = 0 ∧
      common.countP (fun t => t == "[::1]") = 0 := by
    rw [List.countP_append] at hpc2
    omega
  have htok : strPre "[::1]:" (bracketHost "::1" ++ ":" ++ shQuote outp) = true := by
    generalize shQuote outp = q
    obtain ⟨qd⟩ := q
    rfl
  have hinF : strPre "[::1]:" inp = false := brColonPre_false hin
  have hscp : strPre "[::1]:" "scp" = false := by decide
  have hsftpP : strPre "[::1]:" "sftp" = false := by decide
  have hbrP : strPre "[::1]:" (bracketHost "::1") = false := by decide
  have hsftpE : (("sftp" : String) == "[::1]") = false := by decide
  have hbrE : ((bracketHost "::1") == "[::1]") = true := by decide
  refine ⟨?_, ?_, ?_⟩
  · show (pw ++ ["scp"] ++ common ++ [inp, bracketHost "::1" ++ ":" ++ shQuote outp]).countP
      (fun t => strPre "[::1]:" t) = 1
    simp only [List.countP_append, List.countP_cons, List.countP_nil, hpw1, hc1]
    rw [htok, hinF]
    simp [hscp]
  · show (pw ++ ["sftp"] ++ common ++ [bracketHost "::1"]).countP
      (fun t => strPre "[::1]:" t) = 0
    simp only [List.countP_append, List.countP_cons, List.countP_nil, hpw1, hc1]
    rw [hbrP]
    simp [hsftpP]
  · show (pw ++ ["sftp"] ++ common ++ [bracketHost "::1"]).countP
      (fun t => t == "[::1]") = 1
    simp only [List.countP_append, List.countP_cons, List.countP_nil, hpw2, hc2]
    rw [hbrE]
    simp [hsftpE]

/-- Witness for C6 (amended) at concrete inputs. -/
theorem C6_witness :
    (putFileCmd [] ["-o", "Foo=1"] true "::1" "/src" "/dst").1.countP
      (fun t => strPre "[::1]:" t) = 1 ∧
    (putFileCmd [] ["-o", "Foo=1"] false "::1" "/src" "/dst").1.countP
      (fun t => strPre "[::1]:" t) = 0 ∧
    (putFileCmd [] ["-o", "Foo=1"] false "::1" "/src" "/dst").1.countP
      (fun t => t == "[::1]") = 1 :=
  C6_bracketing [] ["-o", "Foo=1"] "/src" "/dst" (by decide) (by decide)

/-! ## C10: `add_host` host variables -/

theorem dictSet_self_mem (d : List (String × String)) (k v : String) :
    (k, v) ∈ dictSet d k v := by
  unfold dictSet
  by_cases h : dictHas d k
  · rw [if_pos h]
    unfold dictHas at h
    rw [List.any_eq_true] at h
    obtain ⟨kv, hkv, hk⟩ := h
    refine List.mem_map.mpr ⟨kv, hkv, ?_⟩
    rw [if_pos hk]
  · rw [if_neg h]
    simp

theorem dictSet_mem_of_ne (d : List (String × String)) (k v : String)
    (kv : String × String) (hm : kv ∈ d) (hne : kv.1 ≠ k) : kv ∈ dictSet d k v := by
  unfold dictSet
  by_cases h : dictHas d k
  · rw [if_pos h]
    refine List.mem_map.mpr ⟨kv, hm, ?_⟩
    have hb : ¬(kv.1 == k) = true := fun hb => hne (eq_of_beq hb)
    rw [if_neg hb]
  · rw [if_neg h]
    exact List.mem_append_left _ hm

/-- C10: the `host_vars` of an `add_host` result are exactly the task args —
after the parsed port has been injected as `ansible_ssh_port` — restricted to
keys outside `{name, hostname, groupname, groups}`; consequently the alias
key `group` survives into `host_vars`, and an injected port appears there. -/
theorem C10_add_host_vars (args : List (String × String)) (nn name : String)
    (port : Option String)
    (h1 : addHostName args = some nn)
    (h2 : parse_address nn = (name, port))
    (h3 : name ≠ "") :
    ∃ r, add_host false args = Except.ok (AddHostOutcome.added r) ∧
      r.host_name = name ∧
      r.host_vars = (addHostArgs1 args port).filter
        (fun kv => !(addHostExcluded.contains kv.1)) ∧
      (∀ v, ("group", v) ∈ args → ("group", v) ∈ r.host_vars) ∧
      (∀ p, port = some p → ("ansible_ssh_port", p) ∈ r.host_vars) := by
  have hres : add_host false args = Except.ok (AddHostOutcome.added
      ⟨name, addHostGroups (addHostArgs1 args port),
        addHostVars (addHostArgs1 args port)⟩) := by
    unfold add_host
    rw [h1]
    simp only [h2, if_neg h3]
    rfl
  refine ⟨_, hres, rfl, rfl, ?_, ?_⟩
  · intro v hv
    have h1m : ("group", v) ∈ addHostArgs1 args port := by
      cases port with
      | none => exact hv
      | some p =>
        have hne : ("group", v).1 ≠ "ansible_ssh_port" := by
          show ("group" : String) ≠ "ansible_ssh_port"
          decide
        exact dictSet_mem_of_ne args "ansible_ssh_port" p ("group", v) hv hne
    show ("group", v) ∈ (addHostArgs1 args port).filter
      (fun kv => !(addHostExcluded.contains kv.1))
    refine List.mem_filter.mpr ⟨h1m, ?_⟩
    show (!addHostExcluded.contains ("group" : String)) = true
    decide
  · intro p hp
    subst hp
    have h1m : ("ansible_ssh_port", p) ∈ addHostArgs1 args (some p) :=
      dictSet_self_mem args "ansible_ssh_port" p
    show ("ansible_ssh_port", p) ∈ (addHostArgs1 args (some p)).filter
      (fun kv => !(addHostExcluded.contains kv.1))
    refine List.mem_filter.mpr ⟨h1m, ?_⟩
    show (!addHostExcluded.contains ("ansible_ssh_port" : String)) = true
    decide

/-- Sample `add_host` task args carrying a `host:port` name, the `group`
alias, and an ordinary variable. -/
def argsAddHost : List (String × String) :=
  [("name", "web1.example.com:2222"), ("group", "webservers"), ("foo", "bar")]

/-- Witness for C10 at concrete inputs: the port 2222 parsed out of the name
and the `group` alias both appear in `host_vars`. -/
theorem C10_witness :
    ∃ r, add_host false argsAddHost = Except.ok (AddHostOutcome.added r) ∧
      r.host_name = "web1.example.com" ∧
      r.host_vars = (addHostArgs1 argsAddHost (some "2222")).filter
        (fun kv => !(addHostExcluded.contains kv.1)) ∧
      ("group", "webservers") ∈ r.host_vars ∧
      ("ansible_ssh_port", "2222") ∈ r.host_vars := by
  obtain ⟨r, hr, hn, hv, hg, hp⟩ := C10_add_host_vars argsAddHost "web1.example.com:2222"
    "web1.example.com" (some "2222") rfl (by decide) (by decide)
  exact ⟨r, hr, hn, hv, hg "webservers" (by decide), hp "2222" rfl⟩

end Ansible
